import Mathlib

/-!
Verification of the nearbychat backend handlers (the Hono server in the
repository source) against its design document.  The five HTTP handlers
(signup, update-location, nearby-users, send-message, get-messages) are
embedded as pure Lean functions over an explicit key-value store state.
External effects (the identity provider, JSON body parsing, storage
faults) are passed in as explicit environment fields: a `some e` fault
field models that step throwing exception `e`, mirroring the `try/catch`
blocks of the handlers.

Timestamps: the source stores `new Date().toISOString()` and sorts by
`new Date(s).getTime()`; since `toISOString`/`getTime` round-trip on the
relevant range, timestamps are embedded directly as milliseconds (`Nat`).
JS numbers in profile coordinates are embedded as `Option Int` (`null`
becomes `none`); the only operations the handlers perform on them are
truthiness tests and field copies, which `Int` models exactly.
-/

namespace NearbyChat

/-- User profile record, as written by the signup handler:
`{id, email, name, avatar, latitude, longitude, lastSeen}`. -/
structure UserProfile where
  id : String
  email : String
  name : String
  avatar : String
  latitude : Option Int
  longitude : Option Int
  lastSeen : Nat
  deriving DecidableEq, Repr

/-- Message record, as written by the send-message handler:
`{senderId, recipientId, message, timestamp}`. -/
structure MessageData where
  senderId : String
  recipientId : String
  message : String
  timestamp : Nat
  deriving DecidableEq, Repr

/-- A value stored in the key-value store: the handlers only ever store
user profiles (under `user:` keys) and messages (under `message:` keys). -/
inductive KVValue where
  | user (p : UserProfile)
  | msg (m : MessageData)
  deriving DecidableEq, Repr

/-- The key-value store state: an association list from string keys to
stored values. -/
abbrev Store := List (String × KVValue)

/-- Modelled from the spec: `kv_store.tsx` is imported by the server but is
not among the source files; the spec describes `set(key, value)` as an
upsert that overwrites unconditionally. -/
def kvSet (st : Store) (k : String) (v : KVValue) : Store :=
  (k, v) :: st.filter (fun e => e.1 != k)

/-- Modelled from the spec: `get(key)` returns the stored value or an
explicit not-found signal. -/
def kvGet (st : Store) (k : String) : Option KVValue :=
  (st.find? (fun e => e.1 == k)).map (fun e => e.2)

/-- Modelled from the spec: `getByPrefix(prefix)` returns all values whose
keys start with the given string (character-wise). -/
def kvGetByPrefix (st : Store) (p : String) : List KVValue :=
  (st.filter (fun e => p.data.isPrefixOf e.1.data)).map (fun e => e.2)

/-- Lexicographic string comparison, as JS `<` performs on two strings:
compare character by character, a strict prefix being smaller.  (JS
compares UTF-16 code units; on the basic multilingual plane this is the
character order used here.) -/
def charListLt : List Char → List Char → Bool
  | _, [] => false
  | [], _ :: _ => true
  | c :: cs, d :: ds =>
    if c < d then true
    else if d < c then false
    else charListLt cs ds

/-- JS string comparison `a < b`. -/
def strLtb (a b : String) : Bool :=
  charListLt a.data b.data

/-- JS `[a, b].sort()` on a two-element array of strings: the default sort
keeps the order when the first element is not greater than the second,
otherwise swaps them. -/
def sortPair (a b : String) : String × String :=
  if strLtb b a then (b, a) else (a, b)

/-- `[user.id, recipientId].sort().join(':')` from the send-message and
get-messages handlers. -/
def conversationId (a b : String) : String :=
  (sortPair a b).1 ++ ":" ++ (sortPair a b).2

/-- The key under which the send-message handler stores a message:
`message:<conversationId>:<Date.now()>`. -/
def messageKey (cid : String) (now : Nat) : String :=
  "message:" ++ cid ++ ":" ++ toString now

/-- The string the get-messages handler scans by:
`message:<conversationId>` (note: no trailing colon). -/
def scanKey (cid : String) : String :=
  "message:" ++ cid

theorem charListLt_asymm :
    ∀ x y : List Char, charListLt x y = true → charListLt y x = false := by
  intro x
  induction x with
  | nil =>
    intro y h
    cases y with
    | nil => simp [charListLt] at h
    | cons d ds => rfl
  | cons c cs ih =>
    intro y h
    cases y with
    | nil => simp [charListLt] at h
    | cons d ds =>
      by_cases hcd : c < d
      · have hdc : ¬ d < c := lt_asymm hcd
        simp [charListLt, hcd, hdc]
      · by_cases hdc : d < c
        · simp [charListLt, hcd, hdc] at h
        · simp only [charListLt, if_neg hcd, if_neg hdc] at h
          simp only [charListLt, if_neg hcd, if_neg hdc]
          exact ih ds h

theorem charListLt_eq_of_not :
    ∀ x y : List Char, charListLt x y = false → charListLt y x = false → x = y := by
  intro x
  induction x with
  | nil =>
    intro y h1 h2
    cases y with
    | nil => rfl
    | cons d ds => simp [charListLt] at h1
  | cons c cs ih =>
    intro y h1 h2
    cases y with
    | nil => simp [charListLt] at h2
    | cons d ds =>
      by_cases hcd : c < d
      · simp [charListLt, hcd] at h1
      · by_cases hdc : d < c
        · simp [charListLt, hdc] at h2
        · have hce : c = d := le_antisymm (not_lt.mp hdc) (not_lt.mp hcd)
          simp only [charListLt, if_neg hcd, if_neg hdc] at h1
          simp only [charListLt, if_neg hdc, if_neg hcd] at h2
          rw [hce, ih ds h1 h2]

theorem conversationId_comm (a b : String) : conversationId a b = conversationId b a := by
  unfold conversationId sortPair
  cases h1 : strLtb b a <;> cases h2 : strLtb a b
  · have hab : a = b :=
      String.ext (charListLt_eq_of_not a.data b.data h2 h1)
    subst hab
    rfl
  · simp
  · simp
  · have := charListLt_asymm a.data b.data h2
    rw [strLtb] at h1
    rw [this] at h1
    cases h1

/-- C2: the conversation id computed by the handlers (sorting the two ids
and joining them with a colon) is symmetric in its two arguments. -/
theorem C2_conversationId_symmetric (a b : String) :
    conversationId a b = conversationId b a :=
  conversationId_comm a b

/-- The projection the nearby-users handler applies to each surviving
profile: it keeps id, name, avatar, latitude, longitude and lastSeen, and
drops the stored email. -/
structure PublicUser where
  id : String
  name : String
  avatar : String
  latitude : Option Int
  longitude : Option Int
  lastSeen : Nat
  deriving DecidableEq, Repr

def toPublicUser (p : UserProfile) : PublicUser :=
  ⟨p.id, p.name, p.avatar, p.latitude, p.longitude, p.lastSeen⟩

/-- Response bodies the handlers can produce (`c.json(...)` payloads). -/
inductive Body where
  | err (msg : String)
  | signupOk (userId : String)
  | success
  | users (l : List PublicUser)
  | sendOk (m : MessageData)
  | messages (l : List KVValue)
  deriving DecidableEq, Repr

/-- An HTTP response: status code plus JSON body. -/
structure Response where
  status : Nat
  body : Body
  deriving DecidableEq, Repr

/-- JS truthiness of a `number | null` coordinate field: `null` and `0`
are falsy, every other number is truthy.  (The handlers test coordinates
with `u.latitude && u.longitude`.) -/
def numTruthy : Option Int → Bool
  | none => false
  | some x => x != 0

/-- The filter of the nearby-users handler,
`u.id !== user.id && u.latitude && u.longitude`, applied to a stored
value.  A stored message has no `id`/`latitude` properties; in JS the
reads yield `undefined`, which is falsy, so such a value is dropped. -/
def nearbyFilter (callerId : String) : KVValue → Bool
  | .user u => u.id != callerId && numTruthy u.latitude && numTruthy u.longitude
  | .msg _ => false

/-- The map of the nearby-users handler.  It runs after `nearbyFilter`,
so it is only ever applied to user profiles; the message branch supplies
an arbitrary record and is unreachable in the pipeline. -/
def projectUser : KVValue → PublicUser
  | .user u => toPublicUser u
  | .msg _ => ⟨"", "", "", none, none, 0⟩

/-- Environment of one signup request.  `bodyFault` models
`await c.req.json()` throwing, `createUserFault` models the provider call
itself throwing, `createUser` is the provider's returned
`{data, error}` (an `error` becomes HTTP 400), `kvSetFault` models the
store write throwing, `now` is the current time in milliseconds. -/
structure SignupEnv where
  bodyFault : Option String
  email : String
  password : String
  name : String
  avatar : String
  createUserFault : Option String
  createUser : Except String String
  kvSetFault : Option String
  now : Nat
  deriving Repr

/-- The signup handler. -/
def signup (env : SignupEnv) (st : Store) : Response × Store :=
  match env.bodyFault with
  | some e => (⟨500, .err e⟩, st)
  | none =>
  match env.createUserFault with
  | some e => (⟨500, .err e⟩, st)
  | none =>
  match env.createUser with
  | .error msg => (⟨400, .err msg⟩, st)
  | .ok uid =>
    match env.kvSetFault with
    | some e => (⟨500, .err e⟩, st)
    | none =>
      (⟨200, .signupOk uid⟩,
        kvSet st ("user:" ++ uid)
          (.user ⟨uid, env.email, env.name, env.avatar, none, none, env.now⟩))

/-- The in-place mutation the update-location handler performs on the
value read back from the store:
`userData.latitude = latitude; userData.longitude = longitude;`
`userData.lastSeen = ...`.  The handlers never store anything but a
profile under a `user:` key; a non-profile value is written back
unchanged here (in JS the three fields would be attached to whatever
object was stored, a state no handler run can produce). -/
def setLocation (v : KVValue) (lat lng : Option Int) (now : Nat) : KVValue :=
  match v with
  | .user p => .user { p with latitude := lat, longitude := lng, lastSeen := now }
  | .msg m => .msg m

/-- Environment of one update-location request.  `authFault` models the
token-resolution call throwing; `user` is the identity the provider
resolved the bearer token to (`none` yields HTTP 401). -/
structure UpdateLocEnv where
  authFault : Option String
  user : Option String
  bodyFault : Option String
  latitude : Option Int
  longitude : Option Int
  kvGetFault : Option String
  kvSetFault : Option String
  now : Nat
  deriving Repr

/-- The update-location handler. -/
def updateLocation (env : UpdateLocEnv) (st : Store) : Response × Store :=
  match env.authFault with
  | some e => (⟨500, .err e⟩, st)
  | none =>
  match env.user with
  | none => (⟨401, .err ("Unauthorized")⟩, st)
  | some uid =>
  match env.bodyFault with
  | some e => (⟨500, .err e⟩, st)
  | none =>
  match env.kvGetFault with
  | some e => (⟨500, .err e⟩, st)
  | none =>
  match kvGet st ("user:" ++ uid) with
  | none => (⟨200, .success⟩, st)
  | some v =>
    match env.kvSetFault with
    | some e => (⟨500, .err e⟩, st)
    | none =>
      (⟨200, .success⟩,
        kvSet st ("user:" ++ uid) (setLocation v env.latitude env.longitude env.now))

/-- Environment of one nearby-users or get-messages request: these two
handlers never write to the store. -/
structure AuthEnv where
  authFault : Option String
  user : Option String
  kvFault : Option String
  deriving Repr

/-- The nearby-users handler.  It reads every `user:`-keyed value, keeps
those passing `nearbyFilter`, projects away the email, and never writes. -/
def nearbyUsers (env : AuthEnv) (st : Store) : Response :=
  match env.authFault with
  | some e => ⟨500, .err e⟩
  | none =>
  match env.user with
  | none => ⟨401, .err ("Unauthorized")⟩
  | some uid =>
  match env.kvFault with
  | some e => ⟨500, .err e⟩
  | none =>
    ⟨200, .users (((kvGetByPrefix st ("user:")).filter (nearbyFilter uid)).map projectUser)⟩

/-- Environment of one send-message request. -/
structure SendEnv where
  authFault : Option String
  user : Option String
  bodyFault : Option String
  recipientId : String
  message : String
  kvSetFault : Option String
  now : Nat
  deriving Repr

/-- The send-message handler. -/
def sendMessage (env : SendEnv) (st : Store) : Response × Store :=
  match env.authFault with
  | some e => (⟨500, .err e⟩, st)
  | none =>
  match env.user with
  | none => (⟨401, .err ("Unauthorized")⟩, st)
  | some uid =>
  match env.bodyFault with
  | some e => (⟨500, .err e⟩, st)
  | none =>
    match env.kvSetFault with
    | some e => (⟨500, .err e⟩, st)
    | none =>
      (⟨200, .sendOk ⟨uid, env.recipientId, env.message, env.now⟩⟩,
        kvSet st (messageKey (conversationId uid env.recipientId) env.now)
          (.msg ⟨uid, env.recipientId, env.message, env.now⟩))

/-- The timestamp the get-messages sort comparator reads from a stored
value (`new Date(a.timestamp).getTime()`).  A value without a timestamp
field never occurs under a `message:` key in any handler-produced store;
the profile branch supplies a default. -/
def msgTimestamp : KVValue → Nat
  | .msg m => m.timestamp
  | .user _ => 0

/-- The comparator of the get-messages handler, as the boolean order the
stable JS sort realises: `a` may stay before `b` iff
`ta - tb <= 0`. -/
def tsLe (a b : KVValue) : Bool :=
  msgTimestamp a ≤ msgTimestamp b

/-- Environment of one get-messages request; `recipientId` is the path
parameter. -/
structure GetMsgsEnv where
  authFault : Option String
  user : Option String
  recipientId : String
  kvFault : Option String
  deriving Repr

/-- The get-messages handler: scans by `message:<conversationId>` and
stably sorts the results by their timestamp field (modelled by
`List.mergeSort`, which like the JS engine sort is stable and produces a
sorted permutation). -/
def getMessages (env : GetMsgsEnv) (st : Store) : Response :=
  match env.authFault with
  | some e => ⟨500, .err e⟩
  | none =>
  match env.user with
  | none => ⟨401, .err ("Unauthorized")⟩
  | some uid =>
  match env.kvFault with
  | some e => ⟨500, .err e⟩
  | none =>
    ⟨200, .messages
      ((kvGetByPrefix st (scanKey (conversationId uid env.recipientId))).mergeSort tsLe)⟩

theorem kvGet_kvSet_self (st : Store) (k : String) (v : KVValue) :
    kvGet (kvSet st k v) k = some v := by
  simp [kvGet, kvSet]

theorem kvSet_kvSet_same (st : Store) (k : String) (v w : KVValue) :
    kvSet (kvSet st k v) k w = kvSet st k w := by
  simp [kvSet, List.filter_filter]

theorem setLocation_idem (v : KVValue) (lat lng : Option Int) (now : Nat) :
    setLocation (setLocation v lat lng now) lat lng now = setLocation v lat lng now := by
  cases v <;> rfl

/-- C9: update-location is idempotent on the store: running the handler a
second time with the same environment (caller, coordinates, clock, fault
pattern) leaves the store exactly as after the first run. -/
theorem C9_updateLocation_idempotent (env : UpdateLocEnv) (st : Store) :
    (updateLocation env (updateLocation env st).2).2 = (updateLocation env st).2 := by
  unfold updateLocation
  cases ha : env.authFault with
  | some e => simp
  | none =>
  cases hu : env.user with
  | none => simp
  | some uid =>
  cases hb : env.bodyFault with
  | some e => simp
  | none =>
  cases hg : env.kvGetFault with
  | some e => simp
  | none =>
  simp only
  cases hget : kvGet st ("user:" ++ uid) with
  | none => simp [hget]
  | some v =>
    cases hs : env.kvSetFault with
    | some e => simp [hget, hs]
    | none =>
      simp [hget, hs, kvGet_kvSet_self, setLocation_idem, kvSet_kvSet_same]

/-- C5: when no value is stored under the caller's `user:<id>` key, the
update-location handler leaves the store untouched (in particular it
creates no profile) and still answers HTTP 200 `{success: true}`. -/
theorem C5_updateLocation_missing_profile_noop (env : UpdateLocEnv) (st : Store) (uid : String)
    (ha : env.authFault = none) (hu : env.user = some uid)
    (hb : env.bodyFault = none) (hg : env.kvGetFault = none)
    (habs : kvGet st ("user:" ++ uid) = none) :
    updateLocation env st = (⟨200, .success⟩, st) := by
  unfold updateLocation
  rw [ha, hu, hb, hg]
  simp [habs]

/-- Witness for C5 at a concrete request: an authenticated caller with an
empty store. -/
theorem C5_updateLocation_missing_profile_noop_witness :
    updateLocation ⟨none, some ("u1"), none, some 7, some 8, none, none, 3⟩ [] =
      (⟨200, .success⟩, []) :=
  C5_updateLocation_missing_profile_noop _ [] "u1" rfl rfl rfl rfl rfl

/-- C4: when the identity provider accepts the signup, the handler stores
a profile under `user:<id>` whose coordinates are both null, so an
immediate read of that key yields a profile with
`latitude = null` and `longitude = null`. -/
theorem C4_signup_null_coordinates (env : SignupEnv) (st : Store) (uid : String)
    (hb : env.bodyFault = none) (hcf : env.createUserFault = none)
    (hc : env.createUser = .ok uid) (hk : env.kvSetFault = none) :
    (signup env st).1 = ⟨200, .signupOk uid⟩ ∧
    ∃ p : UserProfile, kvGet (signup env st).2 ("user:" ++ uid) = some (.user p) ∧
      p.latitude = none ∧ p.longitude = none := by
  unfold signup
  rw [hb, hcf, hc, hk]
  exact ⟨rfl, ⟨uid, env.email, env.name, env.avatar, none, none, env.now⟩,
    kvGet_kvSet_self .., rfl, rfl⟩

/-- Witness for C4 at a concrete signup request on the empty store. -/
theorem C4_signup_null_coordinates_witness :
    (signup ⟨none, "a@b.c", "pw", "Alice", "🙂", none, .ok ("u1"), none, 5⟩ []).1 =
        ⟨200, .signupOk ("u1")⟩ ∧
      ∃ p : UserProfile,
        kvGet (signup ⟨none, "a@b.c", "pw", "Alice", "🙂", none, .ok ("u1"), none, 5⟩ []).2
            ("user:" ++ "u1") = some (.user p) ∧
          p.latitude = none ∧ p.longitude = none :=
  C4_signup_null_coordinates _ [] "u1" rfl rfl rfl rfl

theorem mem_kvGetByPrefix {st : Store} {p : String} {v : KVValue} :
    v ∈ kvGetByPrefix st p ↔ ∃ k, (k, v) ∈ st ∧ p.data.isPrefixOf k.data = true := by
  simp only [kvGetByPrefix, List.mem_map, List.mem_filter]
  constructor
  · rintro ⟨⟨k, w⟩, ⟨hm, hp⟩, rfl⟩
    exact ⟨k, hm, hp⟩
  · rintro ⟨k, hm, hp⟩
    exact ⟨(k, v), ⟨hm, hp⟩, rfl⟩

/-- C3 (amended): the nearby-users handler returns exactly the projections
of the stored `user:`-keyed profiles whose id differs from the caller's
and whose two coordinates are both truthy, i.e. non-null AND non-zero.
(The source tests `u.latitude && u.longitude`, so a zero coordinate is
dropped along with a null one.) -/
theorem C3_nearbyUsers_exactly_truthy_others (env : AuthEnv) (st : Store) (uid : String)
    (ha : env.authFault = none) (hu : env.user = some uid) (hf : env.kvFault = none) :
    ∃ l, nearbyUsers env st = ⟨200, Body.users l⟩ ∧
      ∀ v : PublicUser, v ∈ l ↔
        ∃ k, ∃ p : UserProfile, (k, KVValue.user p) ∈ st ∧
          ("user:").data.isPrefixOf k.data = true ∧
          p.id ≠ uid ∧ numTruthy p.latitude = true ∧ numTruthy p.longitude = true ∧
          v = toPublicUser p := by
  unfold nearbyUsers
  rw [ha, hu, hf]
  refine ⟨_, rfl, fun v => ?_⟩
  simp only [List.mem_map, List.mem_filter, mem_kvGetByPrefix]
  constructor
  · rintro ⟨w, ⟨⟨k, hm, hp⟩, hfil⟩, rfl⟩
    cases w with
    | user p =>
      simp only [nearbyFilter, Bool.and_eq_true, bne_iff_ne, ne_eq] at hfil
      exact ⟨k, p, hm, hp, hfil.1.1, hfil.1.2, hfil.2, rfl⟩
    | msg m => simp [nearbyFilter] at hfil
  · rintro ⟨k, p, hm, hp, hid, hlat, hlng, rfl⟩
    refine ⟨KVValue.user p, ⟨⟨k, hm, hp⟩, ?_⟩, rfl⟩
    simp [nearbyFilter, hid, hlat, hlng]

/-- Witness for the amended C3: a concrete store holding the caller, a
located user, an unlocated user and a zero-longitude user; the handler
returns exactly the located other user. -/
theorem C3_nearbyUsers_exactly_truthy_others_witness :
    ∃ l, nearbyUsers ⟨none, some ("u1"), none⟩
        [(("user:u1"), .user ⟨"u1", "a@x", "A", "🙂", some 1, some 2, 0⟩),
         (("user:u2"), .user ⟨"u2", "b@x", "B", "😎", some 3, some 4, 0⟩),
         (("user:u3"), .user ⟨"u3", "c@x", "C", "🙃", none, none, 0⟩),
         (("user:u4"), .user ⟨"u4", "d@x", "D", "😐", some 5, some 0, 0⟩)] =
        ⟨200, Body.users l⟩ ∧
      ∀ v : PublicUser, v ∈ l ↔
        ∃ k, ∃ p : UserProfile,
          (k, KVValue.user p) ∈
            [(("user:u1"), KVValue.user ⟨"u1", "a@x", "A", "🙂", some 1, some 2, 0⟩),
             (("user:u2"), KVValue.user ⟨"u2", "b@x", "B", "😎", some 3, some 4, 0⟩),
             (("user:u3"), KVValue.user ⟨"u3", "c@x", "C", "🙃", none, none, 0⟩),
             (("user:u4"), KVValue.user ⟨"u4", "d@x", "D", "😐", some 5, some 0, 0⟩)] ∧
          ("user:").data.isPrefixOf k.data = true ∧
          p.id ≠ "u1" ∧ numTruthy p.latitude = true ∧ numTruthy p.longitude = true ∧
          v = toPublicUser p :=
  C3_nearbyUsers_exactly_truthy_others _ _ "u1" rfl rfl rfl

/-- C3 (counterexample to the claim as stated): a profile whose
coordinates are both non-null, with an id different from the caller's, is
nonetheless omitted by the handler, because its zero latitude is falsy in
the source's `u.latitude && u.longitude` test.  The claim's non-null
reading is therefore false on the code. -/
theorem C3_nearbyUsers_nonnull_counterexample :
    (⟨"u2", "b@x", "B", "😎", some 0, some 4, 0⟩ : UserProfile).latitude ≠ none ∧
    (⟨"u2", "b@x", "B", "😎", some 0, some 4, 0⟩ : UserProfile).longitude ≠ none ∧
    (⟨"u2", "b@x", "B", "😎", some 0, some 4, 0⟩ : UserProfile).id ≠ "u1" ∧
    nearbyUsers ⟨none, some ("u1"), none⟩
        [(("user:u2"), KVValue.user ⟨"u2", "b@x", "B", "😎", some 0, some 4, 0⟩)] =
      ⟨200, Body.users []⟩ := by
  refine ⟨by simp, by simp, by decide, ?_⟩
  rfl

theorem messageKey_eq_scanKey_append (cid : String) (now : Nat) :
    messageKey cid now = scanKey cid ++ (":" ++ toString now) := by
  simp [messageKey, scanKey, String.append_assoc]

theorem scanKey_isPrefixOf_messageKey (cid : String) (now : Nat) :
    (scanKey cid).data.isPrefixOf (messageKey cid now).data = true := by
  rw [messageKey_eq_scanKey_append]
  simp

/-- A store respects the key discipline of the data model when every value
stored under a `message:`-prefixed key is a message record.  Every store a
run of the handlers can produce satisfies this. -/
def MsgKeyed (st : Store) : Prop :=
  ∀ k v, (k, v) ∈ st → ("message:").data.isPrefixOf k.data = true → ∃ m, v = KVValue.msg m

theorem tsLe_trans (a b c : KVValue) : tsLe a b → tsLe b c → tsLe a c := by
  simp only [tsLe, decide_eq_true_eq]
  omega

theorem tsLe_total (a b : KVValue) : tsLe a b || tsLe b a := by
  simp only [tsLe, Bool.or_eq_true, decide_eq_true_eq]
  omega

/-- C1: in a store respecting the message key discipline, after a
successful `sendMessage` by A to B, `getMessages` run by either
participant with the other's id answers HTTP 200 with a list that
contains the stored message record `{senderId: A, recipientId: B,
message, timestamp}`, consists of message records only, and is sorted
ascending by the timestamp field. -/
theorem C1_send_then_get_contains_sorted (st : Store) (hk : MsgKeyed st)
    (A B text : String) (now : Nat) (caller other : String)
    (hco : (caller = A ∧ other = B) ∨ (caller = B ∧ other = A)) :
    (sendMessage ⟨none, some A, none, B, text, none, now⟩ st).1 =
      ⟨200, .sendOk ⟨A, B, text, now⟩⟩ ∧
    ∃ l, getMessages ⟨none, some caller, other, none⟩
          (sendMessage ⟨none, some A, none, B, text, none, now⟩ st).2 =
        ⟨200, Body.messages l⟩ ∧
      KVValue.msg ⟨A, B, text, now⟩ ∈ l ∧
      (∀ v ∈ l, ∃ m : MessageData, v = KVValue.msg m) ∧
      l.Pairwise (fun a b => msgTimestamp a ≤ msgTimestamp b) := by
  have hcid : conversationId caller other = conversationId A B := by
    rcases hco with ⟨rfl, rfl⟩ | ⟨rfl, rfl⟩
    · rfl
    · exact conversationId_comm _ _
  refine ⟨rfl, _, rfl, ?_, ?_, ?_⟩
  · rw [List.mem_mergeSort, hcid]
    exact mem_kvGetByPrefix.mpr
      ⟨messageKey (conversationId A B) now, by simp [sendMessage, kvSet],
        scanKey_isPrefixOf_messageKey ..⟩
  · intro v hv
    rw [List.mem_mergeSort] at hv
    obtain ⟨k, hm, hp⟩ := mem_kvGetByPrefix.mp hv
    have hmsgkey : ("message:").data.isPrefixOf k.data = true := by
      rw [List.isPrefixOf_iff_prefix] at hp ⊢
      refine List.IsPrefix.trans ?_ hp
      simp [scanKey]
    simp only [sendMessage, kvSet, List.mem_cons, List.mem_filter, Prod.mk.injEq] at hm
    rcases hm with ⟨-, rfl⟩ | ⟨hmem, -⟩
    · exact ⟨_, rfl⟩
    · exact hk k v hmem hmsgkey
  · have := List.sorted_mergeSort tsLe_trans tsLe_total
      (kvGetByPrefix (sendMessage ⟨none, some A, none, B, text, none, now⟩ st).2
        (scanKey (conversationId caller other)))
    exact this.imp (by simp only [tsLe, decide_eq_true_eq]; exact fun h => h)

/-- Witness for C1: Alice messages Bob on the empty store and Bob reads
the conversation. -/
theorem C1_send_then_get_contains_sorted_witness :
    (sendMessage ⟨none, some ("alice"), none, "bob", "hi", none, 5⟩ []).1 =
      ⟨200, .sendOk ⟨"alice", "bob", "hi", 5⟩⟩ ∧
    ∃ l, getMessages ⟨none, some ("bob"), "alice", none⟩
          (sendMessage ⟨none, some ("alice"), none, "bob", "hi", none, 5⟩ []).2 =
        ⟨200, Body.messages l⟩ ∧
      KVValue.msg ⟨"alice", "bob", "hi", 5⟩ ∈ l ∧
      (∀ v ∈ l, ∃ m : MessageData, v = KVValue.msg m) ∧
      l.Pairwise (fun a b => msgTimestamp a ≤ msgTimestamp b) :=
  C1_send_then_get_contains_sorted [] (by intro k v h; simp at h)
    "alice" "bob" "hi" 5 "bob" "alice" (Or.inr ⟨rfl, rfl⟩)

theorem sortPair_cases (a b : String) : sortPair a b = (a, b) ∨ sortPair a b = (b, a) := by
  unfold sortPair
  split
  · exact Or.inr rfl
  · exact Or.inl rfl

theorem conversationId_data (a b : String) :
    (conversationId a b).data =
      (sortPair a b).1.data ++ ':' :: (sortPair a b).2.data := by
  simp [conversationId]

theorem conversationId_data_length (a b : String) :
    (conversationId a b).data.length = a.data.length + b.data.length + 1 := by
  rcases sortPair_cases a b with h | h <;> rw [conversationId_data, h] <;> simp <;> omega

/-- Helper for C7: a colon-joined pair of strings determines its parts
when the lengths of the first parts agree. -/
theorem joined_pair_inj {x1 y1 x2 y2 : List Char}
    (h : x1 ++ ':' :: y1 = x2 ++ ':' :: y2) (hl : x1.length = x2.length) :
    x1 = x2 ∧ y1 = y2 := by
  obtain ⟨h1, h2⟩ := List.append_inj h hl
  exact ⟨h1, by injection h2⟩

/-- C7 (counterexample to the claim as stated): the scan string of
conversation (a, b) is `message:a:b` with no trailing separator, and it is
a character prefix of the key `message:a:bc:7` of the distinct
conversation (a, bc), so the get-messages scan for (a, b) also picks up
messages of (a, bc). -/
theorem C7_scan_collision_counterexample :
    ((("a" : String), ("b" : String)) ≠ (("a" : String), ("bc" : String)) ∧
      (("a" : String), ("b" : String)) ≠ (("bc" : String), ("a" : String))) ∧
    (scanKey (conversationId "a" "b")).data.isPrefixOf
        (messageKey (conversationId "a" "bc") 7).data = true := by
  constructor
  · constructor <;> decide
  · decide

/-- C7 (amended): when all ids involved have the same length, the
get-messages scan string of one conversation matches no message key of a
different conversation.  (Without the length restriction the claim fails,
because the scan string lacks a trailing colon: see the counterexample.) -/
theorem C7_amended_distinct_pairs_no_scan_collision
    (a b c d : String) (t : Nat)
    (hab : a.length = b.length) (hac : a.length = c.length) (had : a.length = d.length)
    (hne : ¬((a = c ∧ b = d) ∨ (a = d ∧ b = c))) :
    (scanKey (conversationId a b)).data.isPrefixOf
      (messageKey (conversationId c d) t).data = false := by
  rw [Bool.eq_false_iff]
  intro hpre
  rw [ List.isPrefixOf_iff_prefix] at hpre
  rw [messageKey_eq_scanKey_append, String.data_append] at hpre
  simp only [scanKey, String.data_append, List.append_assoc] at hpre
  rw [List.prefix_append_right_inj] at hpre
  have hlen : (conversationId a b).data.length = (conversationId c d).data.length := by
    rw [conversationId_data_length, conversationId_data_length]
    have h1 : a.data.length = b.data.length := hab
    have h2 : a.data.length = c.data.length := hac
    have h3 : a.data.length = d.data.length := had
    omega
  have hcid : (conversationId a b).data = (conversationId c d).data := by
    refine List.IsPrefix.eq_of_length ?_ hlen
    exact List.prefix_of_prefix_length_le hpre (List.prefix_append ..) (le_of_eq hlen)
  rw [conversationId_data, conversationId_data] at hcid
  have hfstlen :
      (sortPair a b).1.data.length = (sortPair c d).1.data.length := by
    have h1 : a.data.length = b.data.length := hab
    have h2 : a.data.length = c.data.length := hac
    have h3 : a.data.length = d.data.length := had
    rcases sortPair_cases a b with h | h <;> rcases sortPair_cases c d with h' | h' <;>
      rw [h, h'] <;> dsimp only <;> omega
  obtain ⟨hfst, hsnd⟩ := joined_pair_inj hcid hfstlen
  have hfst' : (sortPair a b).1 = (sortPair c d).1 := String.ext hfst
  have hsnd' : (sortPair a b).2 = (sortPair c d).2 := String.ext hsnd
  apply hne
  rcases sortPair_cases a b with h | h <;> rcases sortPair_cases c d with h' | h' <;>
      rw [h, h'] at hfst' hsnd' <;> simp at hfst' hsnd'
  · exact Or.inl ⟨hfst', hsnd'⟩
  · exact Or.inr ⟨hfst', hsnd'⟩
  · exact Or.inr ⟨hsnd', hfst'⟩
  · exact Or.inl ⟨hsnd', hfst'⟩

/-- Witness for the amended C7: two distinct conversations over
equal-length ids never cross-match. -/
theorem C7_amended_distinct_pairs_no_scan_collision_witness :
    (scanKey (conversationId "aa" "bb")).data.isPrefixOf
      (messageKey (conversationId "aa" "cc") 3).data = false :=
  C7_amended_distinct_pairs_no_scan_collision "aa" "bb" "aa" "cc" 3 rfl rfl rfl (by decide)

/-- C8: two send-message requests in the same conversation at the same
clock millisecond compute the same storage key, so the second `kv.set`
overwrites the first message: after both calls the store holds exactly
one entry under that key, containing only the second message. -/
theorem C8_same_millisecond_overwrite :
    (sendMessage ⟨none, some ("alice"), none, "bob", "first", none, 1000⟩ []).2 =
      [(messageKey (conversationId "alice" "bob") 1000,
        KVValue.msg ⟨"alice", "bob", "first", 1000⟩)] ∧
    (sendMessage ⟨none, some ("alice"), none, "bob", "second", none, 1000⟩
        (sendMessage ⟨none, some ("alice"), none, "bob", "first", none, 1000⟩ []).2).2 =
      [(messageKey (conversationId "alice" "bob") 1000,
        KVValue.msg ⟨"alice", "bob", "second", 1000⟩)] ∧
    KVValue.msg ⟨"alice", "bob", "first", 1000⟩ ∉
      ((sendMessage ⟨none, some ("alice"), none, "bob", "second", none, 1000⟩
          (sendMessage ⟨none, some ("alice"), none, "bob", "first", none, 1000⟩ []).2).2).map
        Prod.snd := by
  refine ⟨rfl, ?_, ?_⟩ <;> decide

/-- Agreement of two stored values on everything except a profile's email
field. -/
def valueAgreeExceptEmail : KVValue → KVValue → Bool
  | .user p, .user q =>
    p.id == q.id && p.name == q.name && p.avatar == q.avatar &&
      p.latitude == q.latitude && p.longitude == q.longitude && p.lastSeen == q.lastSeen
  | .msg m, .msg m' => m == m'
  | _, _ => false

/-- Two stores agree except possibly in the email fields of stored
profiles: same keys in the same order, values related by
`valueAgreeExceptEmail`. -/
def storesAgreeExceptEmail : Store → Store → Bool
  | [], [] => true
  | e1 :: t1, e2 :: t2 =>
    e1.1 == e2.1 && valueAgreeExceptEmail e1.2 e2.2 && storesAgreeExceptEmail t1 t2
  | _, _ => false

theorem nearbyFilter_agree (uid : String) {v w : KVValue}
    (h : valueAgreeExceptEmail v w = true) :
    nearbyFilter uid v = nearbyFilter uid w := by
  cases v <;> cases w <;>
    simp only [valueAgreeExceptEmail, Bool.and_eq_true, beq_iff_eq,
      Bool.false_eq_true] at h
  case user.user p q =>
    obtain ⟨⟨⟨⟨⟨hid, -⟩, -⟩, hlat⟩, hlng⟩, -⟩ := h
    simp [nearbyFilter, hid, hlat, hlng]
  case msg.msg => rfl

theorem projectUser_agree {v w : KVValue}
    (h : valueAgreeExceptEmail v w = true) :
    projectUser v = projectUser w := by
  cases v <;> cases w <;>
    simp only [valueAgreeExceptEmail, Bool.and_eq_true, beq_iff_eq,
      Bool.false_eq_true] at h
  case user.user p q =>
    obtain ⟨⟨⟨⟨⟨hid, hname⟩, havatar⟩, hlat⟩, hlng⟩, hseen⟩ := h
    simp [projectUser, toPublicUser, hid, hname, havatar, hlat, hlng, hseen]
  case msg.msg => rfl

theorem kvGetByPrefix_cons (e : String × KVValue) (t : Store) (p : String) :
    kvGetByPrefix (e :: t) p =
      if p.data.isPrefixOf e.1.data = true then e.2 :: kvGetByPrefix t p
      else kvGetByPrefix t p := by
  simp only [kvGetByPrefix, List.filter_cons]
  split <;> simp_all

theorem nearbyPipeline_agree (uid : String) :
    ∀ st1 st2 : Store, storesAgreeExceptEmail st1 st2 = true →
      ((kvGetByPrefix st1 ("user:")).filter (nearbyFilter uid)).map projectUser =
        ((kvGetByPrefix st2 ("user:")).filter (nearbyFilter uid)).map projectUser := by
  intro st1
  induction st1 with
  | nil =>
    intro st2 h
    cases st2 with
    | nil => rfl
    | cons e2 t2 => simp [storesAgreeExceptEmail] at h
  | cons e1 t1 ih =>
    intro st2 h
    cases st2 with
    | nil => simp [storesAgreeExceptEmail] at h
    | cons e2 t2 =>
      simp only [storesAgreeExceptEmail, Bool.and_eq_true, beq_iff_eq] at h
      obtain ⟨⟨hk, hv⟩, ht⟩ := h
      rw [kvGetByPrefix_cons, kvGetByPrefix_cons, hk]
      by_cases hpre : ("user:").data.isPrefixOf e2.1.data = true
      · rw [if_pos hpre, if_pos hpre, List.filter_cons, List.filter_cons,
          nearbyFilter_agree uid hv]
        by_cases hfil : nearbyFilter uid e2.2 = true
        · rw [if_pos hfil, if_pos hfil, List.map_cons, List.map_cons,
            projectUser_agree hv, ih t2 ht]
        · rw [if_neg hfil, if_neg hfil, ih t2 ht]
      · rw [if_neg hpre, if_neg hpre, ih t2 ht]

/-- C10: the nearby-users response is insensitive to the email fields of
the stored profiles: on any two stores that agree except in emails the
handler returns identical responses, so the stored emails (which its
projection drops) can never leak through it. -/
theorem C10_nearbyUsers_email_noninterference (env : AuthEnv) (st1 st2 : Store)
    (h : storesAgreeExceptEmail st1 st2 = true) :
    nearbyUsers env st1 = nearbyUsers env st2 := by
  unfold nearbyUsers
  cases env.authFault with
  | some e => rfl
  | none =>
  cases env.user with
  | none => rfl
  | some uid =>
  cases env.kvFault with
  | some e => rfl
  | none =>
    simp only [Response.mk.injEq, Body.users.injEq, true_and]
    exact nearbyPipeline_agree uid st1 st2 h

/-- Witness for C10: two concrete one-profile stores differing only in
that profile's email give identical nearby-users responses. -/
theorem C10_nearbyUsers_email_noninterference_witness :
    (storesAgreeExceptEmail
        [(("user:u2"), KVValue.user ⟨"u2", "x@a", "B", "av", some 3, some 4, 9⟩)]
        [(("user:u2"), KVValue.user ⟨"u2", "y@b", "B", "av", some 3, some 4, 9⟩)] = true) ∧
      nearbyUsers ⟨none, some ("u1"), none⟩
          [(("user:u2"), KVValue.user ⟨"u2", "x@a", "B", "av", some 3, some 4, 9⟩)] =
        nearbyUsers ⟨none, some ("u1"), none⟩
          [(("user:u2"), KVValue.user ⟨"u2", "y@b", "B", "av", some 3, some 4, 9⟩)] :=
  ⟨by decide, C10_nearbyUsers_email_noninterference _ _ _ (by decide)⟩

/-- C6: the error taxonomy of the handlers.  A provider-reported signup
error yields HTTP 400 with an error body; a bearer token that resolves to
no user yields HTTP 401 with an error body on each of the four
authenticated handlers; a throw at any other step of any handler (body
parsing, the provider call itself throwing, any storage operation) is
caught and yields HTTP 500 with an error body. -/
theorem C6_error_taxonomy :
    (∀ (env : SignupEnv) (st : Store) (e : String),
      env.bodyFault = none → env.createUserFault = none → env.createUser = .error e →
      (signup env st).1 = ⟨400, .err e⟩) ∧
    (∀ (env : UpdateLocEnv) (st : Store), env.authFault = none → env.user = none →
      (updateLocation env st).1 = ⟨401, .err ("Unauthorized")⟩) ∧
    (∀ (env : AuthEnv) (st : Store), env.authFault = none → env.user = none →
      nearbyUsers env st = ⟨401, .err ("Unauthorized")⟩) ∧
    (∀ (env : SendEnv) (st : Store), env.authFault = none → env.user = none →
      (sendMessage env st).1 = ⟨401, .err ("Unauthorized")⟩) ∧
    (∀ (env : GetMsgsEnv) (st : Store), env.authFault = none → env.user = none →
      getMessages env st = ⟨401, .err ("Unauthorized")⟩) ∧
    (∀ (env : SignupEnv) (st : Store) (e : String), env.bodyFault = some e →
      (signup env st).1 = ⟨500, .err e⟩) ∧
    (∀ (env : SignupEnv) (st : Store) (e : String), env.bodyFault = none →
      env.createUserFault = some e → (signup env st).1 = ⟨500, .err e⟩) ∧
    (∀ (env : SignupEnv) (st : Store) (e uid : String), env.bodyFault = none →
      env.createUserFault = none → env.createUser = .ok uid → env.kvSetFault = some e →
      (signup env st).1 = ⟨500, .err e⟩) ∧
    (∀ (env : UpdateLocEnv) (st : Store) (e : String), env.authFault = some e →
      (updateLocation env st).1 = ⟨500, .err e⟩) ∧
    (∀ (env : UpdateLocEnv) (st : Store) (e uid : String), env.authFault = none →
      env.user = some uid → env.bodyFault = some e →
      (updateLocation env st).1 = ⟨500, .err e⟩) ∧
    (∀ (env : UpdateLocEnv) (st : Store) (e uid : String), env.authFault = none →
      env.user = some uid → env.bodyFault = none → env.kvGetFault = some e →
      (updateLocation env st).1 = ⟨500, .err e⟩) ∧
    (∀ (env : UpdateLocEnv) (st : Store) (e uid : String) (v : KVValue),
      env.authFault = none → env.user = some uid → env.bodyFault = none →
      env.kvGetFault = none → kvGet st ("user:" ++ uid) = some v →
      env.kvSetFault = some e → (updateLocation env st).1 = ⟨500, .err e⟩) ∧
    (∀ (env : AuthEnv) (st : Store) (e : String), env.authFault = some e →
      nearbyUsers env st = ⟨500, .err e⟩) ∧
    (∀ (env : AuthEnv) (st : Store) (e uid : String), env.authFault = none →
      env.user = some uid → env.kvFault = some e → nearbyUsers env st = ⟨500, .err e⟩) ∧
    (∀ (env : SendEnv) (st : Store) (e : String), env.authFault = some e →
      (sendMessage env st).1 = ⟨500, .err e⟩) ∧
    (∀ (env : SendEnv) (st : Store) (e uid : String), env.authFault = none →
      env.user = some uid → env.bodyFault = some e →
      (sendMessage env st).1 = ⟨500, .err e⟩) ∧
    (∀ (env : SendEnv) (st : Store) (e uid : String), env.authFault = none →
      env.user = some uid → env.bodyFault = none → env.kvSetFault = some e →
      (sendMessage env st).1 = ⟨500, .err e⟩) ∧
    (∀ (env : GetMsgsEnv) (st : Store) (e : String), env.authFault = some e →
      getMessages env st = ⟨500, .err e⟩) ∧
    (∀ (env : GetMsgsEnv) (st : Store) (e uid : String), env.authFault = none →
      env.user = some uid → env.kvFault = some e → getMessages env st = ⟨500, .err e⟩) := by
  refine ⟨?_, ?_, ?_, ?_, ?_, ?_, ?_, ?_, ?_, ?_, ?_, ?_, ?_, ?_, ?_, ?_, ?_, ?_, ?_⟩
  · intro env st e h1 h2 h3
    simp [signup, h1, h2, h3]
  · intro env st h1 h2
    simp [updateLocation, h1, h2]
  · intro env st h1 h2
    simp [nearbyUsers, h1, h2]
  · intro env st h1 h2
    simp [sendMessage, h1, h2]
  · intro env st h1 h2
    simp [getMessages, h1, h2]
  · intro env st e h1
    simp [signup, h1]
  · intro env st e h1 h2
    simp [signup, h1, h2]
  · intro env st e uid h1 h2 h3 h4
    simp [signup, h1, h2, h3, h4]
  · intro env st e h1
    simp [updateLocation, h1]
  · intro env st e uid h1 h2 h3
    simp [updateLocation, h1, h2, h3]
  · intro env st e uid h1 h2 h3 h4
    simp [updateLocation, h1, h2, h3, h4]
  · intro env st e uid v h1 h2 h3 h4 h5 h6
    simp [updateLocation, h1, h2, h3, h4, h5, h6]
  · intro env st e h1
    simp [nearbyUsers, h1]
  · intro env st e uid h1 h2 h3
    simp [nearbyUsers, h1, h2, h3]
  · intro env st e h1
    simp [sendMessage, h1]
  · intro env st e uid h1 h2 h3
    simp [sendMessage, h1, h2, h3]
  · intro env st e uid h1 h2 h3 h4
    simp [sendMessage, h1, h2, h3, h4]
  · intro env st e h1
    simp [getMessages, h1]
  · intro env st e uid h1 h2 h3
    simp [getMessages, h1, h2, h3]

/-- Witness for C6: each branch of the taxonomy exercised on a concrete
request. -/
theorem C6_error_taxonomy_witness :
    (signup ⟨none, "e", "p", "n", "a", none, .error ("dup"), none, 0⟩ []).1 =
        ⟨400, .err ("dup")⟩ ∧
    (updateLocation ⟨none, none, none, none, none, none, none, 0⟩ []).1 =
        ⟨401, .err ("Unauthorized")⟩ ∧
    nearbyUsers ⟨none, none, none⟩ [] = ⟨401, .err ("Unauthorized")⟩ ∧
    (sendMessage ⟨none, none, none, "r", "m", none, 0⟩ []).1 =
        ⟨401, .err ("Unauthorized")⟩ ∧
    getMessages ⟨none, none, "r", none⟩ [] = ⟨401, .err ("Unauthorized")⟩ ∧
    (signup ⟨some ("boom"), "e", "p", "n", "a", none, .ok ("u"), none, 0⟩ []).1 =
        ⟨500, .err ("boom")⟩ ∧
    (signup ⟨none, "e", "p", "n", "a", some ("boom"), .ok ("u"), none, 0⟩ []).1 =
        ⟨500, .err ("boom")⟩ ∧
    (signup ⟨none, "e", "p", "n", "a", none, .ok ("u"), some ("boom"), 0⟩ []).1 =
        ⟨500, .err ("boom")⟩ ∧
    (updateLocation ⟨some ("boom"), none, none, none, none, none, none, 0⟩ []).1 =
        ⟨500, .err ("boom")⟩ ∧
    (updateLocation ⟨none, some ("u"), some ("boom"), none, none, none, none, 0⟩ []).1 =
        ⟨500, .err ("boom")⟩ ∧
    (updateLocation ⟨none, some ("u"), none, none, none, some ("boom"), none, 0⟩ []).1 =
        ⟨500, .err ("boom")⟩ ∧
    (updateLocation ⟨none, some ("u"), none, none, none, none, some ("boom"), 0⟩
        [(("user:u"), KVValue.user ⟨"u", "e", "n", "a", none, none, 0⟩)]).1 =
        ⟨500, .err ("boom")⟩ ∧
    nearbyUsers ⟨some ("boom"), none, none⟩ [] = ⟨500, .err ("boom")⟩ ∧
    nearbyUsers ⟨none, some ("u"), some ("boom")⟩ [] = ⟨500, .err ("boom")⟩ ∧
    (sendMessage ⟨some ("boom"), none, none, "r", "m", none, 0⟩ []).1 =
        ⟨500, .err ("boom")⟩ ∧
    (sendMessage ⟨none, some ("u"), some ("boom"), "r", "m", none, 0⟩ []).1 =
        ⟨500, .err ("boom")⟩ ∧
    (sendMessage ⟨none, some ("u"), none, "r", "m", some ("boom"), 0⟩ []).1 =
        ⟨500, .err ("boom")⟩ ∧
    getMessages ⟨some ("boom"), none, "r", none⟩ [] = ⟨500, .err ("boom")⟩ ∧
    getMessages ⟨none, some ("u"), "r", some ("boom")⟩ [] = ⟨500, .err ("boom")⟩ := by
  obtain ⟨h1, h2, h3, h4, h5, h6, h7, h8, h9, h10, h11, h12, h13, h14, h15, h16, h17,
    h18, h19⟩ := C6_error_taxonomy
  exact ⟨h1 _ _ _ rfl rfl rfl, h2 _ _ rfl rfl, h3 _ _ rfl rfl, h4 _ _ rfl rfl,
    h5 _ _ rfl rfl, h6 _ _ _ rfl, h7 _ _ _ rfl rfl, h8 _ _ _ _ rfl rfl rfl rfl,
    h9 _ _ _ rfl, h10 _ _ _ _ rfl rfl rfl, h11 _ _ _ _ rfl rfl rfl rfl,
    h12 _ _ _ _ (KVValue.user ⟨"u", "e", "n", "a", none, none, 0⟩)
      rfl rfl rfl rfl (by decide) rfl, h13 _ _ _ rfl,
    h14 _ _ _ _ rfl rfl rfl, h15 _ _ _ rfl, h16 _ _ _ _ rfl rfl rfl,
    h17 _ _ _ _ rfl rfl rfl rfl, h18 _ _ _ rfl, h19 _ _ _ _ rfl rfl rfl⟩

end NearbyChat
